import Mathlib

/-!
Shallow embedding of the ingestion pipeline of `pg-vector-embed-rust`
(`src/app/config.rs`, `src/app/commands.rs`, `src/app/constants.rs`,
`src/embedding/run_embedding.rs`).

External collaborators that live outside the four source files
(`vectordb::pg_vector::{pg_client, create_table, load_vector_data}`, the
`postgres` client's `close`, `vector_embedding::create_embed_request`, the
`RwLock` acquisitions, and `thread::Builder::spawn`) are modelled by an
explicit environment `Env` recording the outcome each of those calls would
produce during one run.  Each embedded function returns, besides its Rust
return value, the list of externally visible events it performs, in program
order; `error!` log calls are recorded as `Event.logError` events (the
`debug!`/`info!` logs are not modelled).  The dedicated persistence thread is
sequential inside itself and starts strictly after `spawn`, so its events are
placed after the `spawnThread` event in the run trace; the `JoinHandle` is
modelled as that thread's event trace.

`f32` values are never computed with by any of this code — they are produced
by the remote service and carried to the database — so they are embedded as
opaque 32-bit patterns.
-/

/-- An `f32` value carried opaquely by its bit pattern (the pipeline never
performs arithmetic on embedding scalars). -/
structure F32 where
  bits : Nat
deriving DecidableEq, Repr

/-- `EmbedRequest` from `src/app/config.rs` (lines 6-10). -/
structure EmbedRequest where
  model : String
  input : List String
  metadata : Option String
deriving DecidableEq, Repr

/-- `EmbedResponse` from `src/app/config.rs` (lines 13-16). -/
structure EmbedResponse where
  model : String
  embeddings : List (List F32)
deriving DecidableEq, Repr

/-- `EmbedRequest::NewArcEmbedRequest` from `src/app/config.rs` (lines 40-54):
builds the request that is placed in the `Arc<RwLock<...>>` shared cell.  The
`Arc<RwLock<...>>` wrapper itself is modelled by the event trace (`cellRead` /
`cellWrite` events), so this returns the cell's one-time contents. -/
def NewArcEmbedRequest (model : String) (input : List String)
    (metadata : String) : EmbedRequest :=
  { model := model, input := input, metadata := some metadata }

/-- `VectorDbConfig` from `src/app/config.rs` (lines 117-123); `port : u16`
and `timeout : u64` are embedded as `Nat` (no arithmetic is performed on
them). -/
structure VectorDbConfig where
  host : String
  port : Nat
  user : String
  dbname : String
  timeout : Nat
deriving DecidableEq, Repr

/-- `VectorDbConfig::to_string` from `src/app/config.rs` (lines 126-131). -/
def VectorDbConfig.to_string (c : VectorDbConfig) : String :=
  "host=" ++ c.host ++ " port=" ++ toString c.port ++ " user=" ++ c.user
    ++ " dbname=" ++ c.dbname

/-- `VectorDbConfig::clone` from `src/app/config.rs` (lines 133-141). -/
def VectorDbConfig.clone (c : VectorDbConfig) : VectorDbConfig :=
  { host := c.host, port := c.port, user := c.user, dbname := c.dbname,
    timeout := c.timeout }

/-- `EMBEDDING_URL` from `src/app/constants.rs`. -/
def EMBEDDING_URL : String := "http://10.0.0.213:11434/api/embed"

/-- Externally visible events of one ingestion run, in program order.
`cellRead`/`cellWrite` are the accesses to the shared request cell
(`cellRead none` is a failed (poisoned) lock acquisition; the program never
emits `cellWrite`, which is what the read-only discipline claims). -/
inductive Event where
  | cellRead (observed : Option EmbedRequest)
  | cellWrite (value : EmbedRequest)
  | serviceCall (url : String) (request : EmbedRequest)
  | spawnThread (threadName : String)
  | pgClientOpen (config : VectorDbConfig) (ok : Bool)
  | createTable (table : String) (dim : Int)
  | loadVectorData (table : String) (request : EmbedRequest)
      (embeddings : List (List F32))
  | closeConn (ok : Bool)
  | logError (msg : String)
deriving DecidableEq, Repr

/-- Outcomes of this run's external calls.  `metadata` is the metadata string
handed to `NewArcEmbedRequest` when the cell is built (the call site in
`run_embedding_load` fixes only the model and the input list). -/
structure Env where
  metadata : String
  fetchLockResult : Except String Unit
  serviceResult : Except String EmbedResponse
  spawnResult : Except String Unit
  pgClientResult : Except String Unit
  persistLockResult : Except String Unit
  createTableResult : Except String Unit
  loadVectorDataResult : Except String Unit
  closeResult : Except String Unit
deriving Repr

/-- `fetch_embedding` from `src/embedding/run_embedding.rs` (lines 93-119):
reads the shared cell, calls `vector_embedding::create_embed_request`, and on
either failure logs and returns the empty sentinel response.  Returns the
events performed and the `EmbedResponse` (the Rust function is infallible:
it never returns an error to its caller). -/
def fetch_embedding (url : String) (embed_data : EmbedRequest) (env : Env) :
    List Event × EmbedResponse :=
  match env.fetchLockResult with
  | .error e =>
      ([Event.cellRead none, Event.logError ("Error: " ++ e)],
       { model := "", embeddings := [] })
  | .ok _ =>
      match env.serviceResult with
      | .ok embed_response =>
          ([Event.cellRead (some embed_data),
            Event.serviceCall url embed_data], embed_response)
      | .error e =>
          ([Event.cellRead (some embed_data),
            Event.serviceCall url embed_data,
            Event.logError ("Error: " ++ e)],
           { model := "", embeddings := [] })

/-- `persist_embedding_data` from `src/embedding/run_embedding.rs`
(lines 130-157): calls `create_table`, logging any error, then
`load_vector_data`, logging any error, and returns `Ok(())`. -/
def persist_embedding_data (table : String) (dimension : Int)
    (embed_request : EmbedRequest) (embeddings : List (List F32))
    (env : Env) : List Event × Except String Unit :=
  let ct : List Event :=
    match env.createTableResult with
    | .ok _ => [Event.createTable table dimension]
    | .error e => [Event.createTable table dimension,
                   Event.logError ("Error: " ++ e)]
  let lv : List Event :=
    match env.loadVectorDataResult with
    | .ok _ => [Event.loadVectorData table embed_request embeddings]
    | .error e => [Event.loadVectorData table embed_request embeddings,
                   Event.logError ("Error: " ++ e)]
  (ct ++ lv, Except.ok ())

/-- The closure spawned on the `embedding_thread`
(`src/embedding/run_embedding.rs` lines 48-81): open a `postgres` client,
acquire a read lock on the shared cell, call `persist_embedding_data`, close
the client.  A client-open or lock failure logs and returns early. -/
def persistence_unit (db_config : VectorDbConfig) (cell : EmbedRequest)
    (vector_table : String) (dim : Int) (embed_response : EmbedResponse)
    (env : Env) : List Event :=
  match env.pgClientResult with
  | .error e => [Event.pgClientOpen db_config false,
                 Event.logError ("Error: " ++ e)]
  | .ok _ =>
      match env.persistLockResult with
      | .error e => [Event.pgClientOpen db_config true, Event.cellRead none,
                     Event.logError ("Error: " ++ e)]
      | .ok _ =>
          let pres := persist_embedding_data vector_table dim cell
            embed_response.embeddings env
          let perr : List Event :=
            match pres.2 with
            | .ok _ => []
            | .error e => [Event.logError ("Error: " ++ e)]
          let close : List Event :=
            match env.closeResult with
            | .ok _ => [Event.closeConn true]
            | .error e => [Event.closeConn false,
                           Event.logError ("Error: " ++ e)]
          [Event.pgClientOpen db_config true, Event.cellRead (some cell)]
            ++ pres.1 ++ perr ++ close

/-- Digit accumulation for `str::parse::<i32>`: all remaining characters must
be ASCII digits. -/
def parseDigitsAux : List Char → Nat → Option Nat
  | [], acc => some acc
  | c :: cs, acc =>
      if c.isDigit then parseDigitsAux cs (acc * 10 + (c.toNat - 48))
      else none

/-- `str::parse::<i32>` as used on the dimension string: optional sign, at
least one digit, all digits, value within `i32` range; anything else is an
error. -/
def parse_i32 (s : String) : Except Unit Int :=
  let cs := s.data
  let signed : Int × List Char :=
    match cs with
    | '+' :: r => (1, r)
    | '-' :: r => (-1, r)
    | r => (1, r)
  match signed.2 with
  | [] => Except.error ()
  | _ :: _ =>
      match parseDigitsAux signed.2 0 with
      | none => Except.error ()
      | some n =>
          let v : Int := signed.1 * (n : Int)
          if -2147483648 ≤ v ∧ v ≤ 2147483647 then Except.ok v
          else Except.error ()

/-- `run_embedding_load` from `src/embedding/run_embedding.rs` (lines 22-85):
build the shared cell, `block_on` the fetch, parse the dimension (`0` with an
error log on parse failure), then spawn the persistence thread.  Returns the
full run trace and the Rust return value, with the `JoinHandle` modelled as
the spawned thread's trace; only a spawn failure produces `Err`. -/
def run_embedding_load (embed_model : String) (input_list : List String)
    (vector_table : String) (dimension : String)
    (db_config : VectorDbConfig) (env : Env) :
    List Event × Except String (List Event) :=
  let url := EMBEDDING_URL
  let embed_request_arc := NewArcEmbedRequest embed_model input_list
    env.metadata
  let fres := fetch_embedding url embed_request_arc env
  let dimRes : List Event × Int :=
    match parse_i32 dimension with
    | .ok d => ([], d)
    | .error _ => ([Event.logError "Failed to parse dimension"], 0)
  match env.spawnResult with
  | .error e => (fres.1 ++ dimRes.1, Except.error e)
  | .ok _ =>
      let ptrace := persistence_unit db_config embed_request_arc vector_table
        dimRes.2 fres.2 env
      (fres.1 ++ dimRes.1 ++ [Event.spawnThread "embedding_thread"]
        ++ ptrace, Except.ok ptrace)

/-- `Commands` from `src/app/commands.rs` (lines 18-60). -/
inductive Commands where
  | Write (input : List String) (model : String) (table : String)
      (dim : String)
  | Query (input : List String) (model : String) (table : String)
  | Version (version : String)
  | Empty
deriving DecidableEq, Repr

/-- `Commands::is_write` from `src/app/commands.rs`. -/
def Commands.is_write : Commands → Bool
  | Commands.Write _ _ _ _ => true
  | _ => false

/-- `Commands::write` from `src/app/commands.rs`: `Some(self)` for a `Write`
command, `None` otherwise. -/
def Commands.write : Commands → Option Commands
  | c@(Commands.Write _ _ _ _) => some c
  | _ => none

/-- `Commands::is_query` from `src/app/commands.rs`. -/
def Commands.is_query : Commands → Bool
  | Commands.Query _ _ _ => true
  | _ => false

/-- `Commands::query` from `src/app/commands.rs`. -/
def Commands.query : Commands → Option Commands
  | c@(Commands.Query _ _ _) => some c
  | _ => none

/-- `Commands::is_version` from `src/app/commands.rs`. -/
def Commands.is_version : Commands → Bool
  | Commands.Version _ => true
  | _ => false

/-- `Commands::version` from `src/app/commands.rs`. -/
def Commands.version : Commands → Option Commands
  | c@(Commands.Version _) => some c
  | _ => none

/-- The cell-access discipline of one trace: no write event, and every
successful read observes the given request. -/
def CellReadsOnly (cell : EmbedRequest) (tr : List Event) : Prop :=
  (∀ v, Event.cellWrite v ∉ tr) ∧
  ∀ r, Event.cellRead (some r) ∈ tr → r = cell

/-- Concrete fixture: a service response. -/
def respW : EmbedResponse :=
  { model := "nomic-embed-text", embeddings := [[⟨1⟩, ⟨2⟩], [⟨3⟩, ⟨4⟩]] }

/-- Concrete fixture: a database configuration. -/
def dbW : VectorDbConfig :=
  { host := "10.0.0.213", port := 5555, user := "rupesh",
    dbname := "vectordb", timeout := 5 }

/-- Concrete fixture: an environment where every external call succeeds. -/
def envOkW : Env :=
  { metadata := "md", fetchLockResult := Except.ok (),
    serviceResult := Except.ok respW, spawnResult := Except.ok (),
    pgClientResult := Except.ok (), persistLockResult := Except.ok (),
    createTableResult := Except.ok (), loadVectorDataResult := Except.ok (),
    closeResult := Except.ok () }

/-- Concrete fixture: the embedding service is unreachable. -/
def envSvcErrW : Env := { envOkW with serviceResult := Except.error "unreachable" }

/-- Concrete fixture: table creation fails. -/
def envCtErrW : Env := { envOkW with createTableResult := Except.error "boom" }

/-- Concrete fixture: the database connection cannot be opened. -/
def envPgErrW : Env := { envOkW with pgClientResult := Except.error "conn refused" }

/-- Concrete fixture: every external call fails except the thread spawn. -/
def envAllFailW : Env :=
  { metadata := "md", fetchLockResult := Except.ok (),
    serviceResult := Except.error "unreachable", spawnResult := Except.ok (),
    pgClientResult := Except.error "conn refused",
    persistLockResult := Except.error "poisoned",
    createTableResult := Except.error "bad dim",
    loadVectorDataResult := Except.error "bad row",
    closeResult := Except.error "already closed" }

/-- Concrete fixture: the cell the successful run constructs. -/
def cellW : EmbedRequest :=
  { model := "nomic-embed-text", input := ["dog barks", "cat purrs"],
    metadata := some "md" }

/-- C1: `fetch_embedding` is infallible (it returns an `EmbedResponse`, by
type, never an error): a read-lock failure on the cell or a failure of
`create_embed_request` (transport error or malformed response) yields exactly
the empty sentinel `{model: "", embeddings: []}`, and on success the
service's response is returned unchanged. -/
theorem fetch_embedding_sentinel_or_identity (url : String)
    (cell : EmbedRequest) (env : Env) :
    (∀ e, env.fetchLockResult = Except.error e →
      (fetch_embedding url cell env).2 = { model := "", embeddings := [] }) ∧
    (∀ e, env.serviceResult = Except.error e →
      (fetch_embedding url cell env).2 = { model := "", embeddings := [] }) ∧
    (∀ resp, env.fetchLockResult = Except.ok () →
      env.serviceResult = Except.ok resp →
      (fetch_embedding url cell env).2 = resp) := by
  refine ⟨fun e he => ?_, fun e he => ?_, fun resp hl hs => ?_⟩
  · simp [fetch_embedding, he]
  · cases hl : env.fetchLockResult with
    | error e₂ => simp [fetch_embedding, hl]
    | ok u => simp [fetch_embedding, hl, he]
  · simp [fetch_embedding, hl, hs]

/-- C1 witness: with an unreachable service, the orchestrator's fetch of the
concrete request yields the empty sentinel. -/
theorem fetch_embedding_sentinel_witness :
    (fetch_embedding EMBEDDING_URL cellW envSvcErrW).2
      = { model := "", embeddings := [] } :=
  (fetch_embedding_sentinel_or_identity EMBEDDING_URL cellW
    envSvcErrW).2.1 "unreachable" rfl

/-- C3: `persist_embedding_data` always returns `Ok(())`, whatever the
outcomes of `create_table` and `load_vector_data`; `load_vector_data` is
still called after the `create_table` call (in that order), and a
`create_table` error is logged. -/
theorem persist_embedding_data_always_ok (table : String) (dim : Int)
    (req : EmbedRequest) (es : List (List F32)) (env : Env) :
    (persist_embedding_data table dim req es env).2 = Except.ok () ∧
    (∃ l₁ l₂, (persist_embedding_data table dim req es env).1
        = l₁ ++ Event.loadVectorData table req es :: l₂ ∧
      Event.createTable table dim ∈ l₁) ∧
    (∀ e, env.createTableResult = Except.error e →
      Event.logError ("Error: " ++ e)
        ∈ (persist_embedding_data table dim req es env).1) := by
  rcases hct : env.createTableResult with e | u <;>
    rcases hlv : env.loadVectorDataResult with e₂ | u₂ <;>
      refine ⟨by simp [persist_embedding_data, hct, hlv], ?_, ?_⟩
  · exact ⟨[Event.createTable table dim, Event.logError ("Error: " ++ e)],
      [Event.logError ("Error: " ++ e₂)],
      by simp [persist_embedding_data, hct, hlv], by simp⟩
  · intro e' he'
    simp only [Except.error.injEq] at he'
    subst he'
    simp [persist_embedding_data, hct, hlv]
  · exact ⟨[Event.createTable table dim, Event.logError ("Error: " ++ e)],
      [], by simp [persist_embedding_data, hct, hlv], by simp⟩
  · intro e' he'
    simp only [Except.error.injEq] at he'
    subst he'
    simp [persist_embedding_data, hct, hlv]
  · exact ⟨[Event.createTable table dim],
      [Event.logError ("Error: " ++ e₂)],
      by simp [persist_embedding_data, hct, hlv], by simp⟩
  · intro e' he'
    exact Except.noConfusion he'
  · exact ⟨[Event.createTable table dim], [],
      by simp [persist_embedding_data, hct, hlv], by simp⟩
  · intro e' he'
    exact Except.noConfusion he'

/-- C3 witness: with a failing `create_table`, persistence still returns
`Ok(())` and the creation error is logged. -/
theorem persist_embedding_data_always_ok_witness :
    (persist_embedding_data "t1" 768 cellW [] envCtErrW).2 = Except.ok () ∧
    Event.logError ("Error: " ++ "boom")
      ∈ (persist_embedding_data "t1" 768 cellW [] envCtErrW).1 :=
  ⟨(persist_embedding_data_always_ok "t1" 768 cellW [] envCtErrW).1,
   (persist_embedding_data_always_ok "t1" 768 cellW [] envCtErrW).2.2
     "boom" rfl⟩

/-- C9: `VectorDbConfig::clone` reproduces all five fields, and
`VectorDbConfig::to_string` ignores `timeout`: two configs differing only in
`timeout` produce the same connection string. -/
theorem vectordb_config_clone_to_string (c : VectorDbConfig) (t : Nat) :
    (VectorDbConfig.clone c).host = c.host ∧
    (VectorDbConfig.clone c).port = c.port ∧
    (VectorDbConfig.clone c).user = c.user ∧
    (VectorDbConfig.clone c).dbname = c.dbname ∧
    (VectorDbConfig.clone c).timeout = c.timeout ∧
    VectorDbConfig.to_string { c with timeout := t }
      = VectorDbConfig.to_string c := by
  refine ⟨rfl, rfl, rfl, rfl, rfl, ?_⟩
  simp [VectorDbConfig.to_string]

/-- C10: for every `Commands` value, each accessor returns `Some(self)`
exactly when the matching predicate returns `true`, and `None` otherwise. -/
theorem commands_accessors_agree (c : Commands) :
    (Commands.write c = if Commands.is_write c then some c else none) ∧
    (Commands.query c = if Commands.is_query c then some c else none) ∧
    (Commands.version c = if Commands.is_version c then some c else none) := by
  cases c <;>
    simp [Commands.write, Commands.is_write, Commands.query,
      Commands.is_query, Commands.version, Commands.is_version]

theorem cellReadsOnly_append {cell : EmbedRequest} {t₁ t₂ : List Event}
    (h₁ : CellReadsOnly cell t₁) (h₂ : CellReadsOnly cell t₂) :
    CellReadsOnly cell (t₁ ++ t₂) := by
  refine ⟨fun v hv => ?_, fun r hr => ?_⟩
  · rcases List.mem_append.1 hv with h | h
    · exact h₁.1 v h
    · exact h₂.1 v h
  · rcases List.mem_append.1 hr with h | h
    · exact h₁.2 r h
    · exact h₂.2 r h

theorem cellReadsOnly_fetch (url : String) (cell : EmbedRequest) (env : Env) :
    CellReadsOnly cell (fetch_embedding url cell env).1 := by
  unfold fetch_embedding
  rcases env.fetchLockResult with e | u
  · simp [CellReadsOnly]
  · rcases env.serviceResult with e₂ | resp <;> simp [CellReadsOnly]

theorem cellReadsOnly_unit (db_config : VectorDbConfig)
    (cell : EmbedRequest) (table : String) (dim : Int)
    (resp : EmbedResponse) (env : Env) :
    CellReadsOnly cell (persistence_unit db_config cell table dim resp env) := by
  rcases hpg : env.pgClientResult with e | u <;>
  rcases hpl : env.persistLockResult with e₂ | u₂ <;>
  rcases hct : env.createTableResult with e₃ | u₃ <;>
  rcases hlv : env.loadVectorDataResult with e₄ | u₄ <;>
  rcases hcl : env.closeResult with e₅ | u₅ <;>
  simp [CellReadsOnly, persistence_unit, persist_embedding_data,
    hpg, hpl, hct, hlv, hcl]

theorem cellReadsOnly_log (cell : EmbedRequest) (m : String) :
    CellReadsOnly cell [Event.logError m] := by
  simp [CellReadsOnly]

theorem cellReadsOnly_nil (cell : EmbedRequest) :
    CellReadsOnly cell ([] : List Event) := by
  simp [CellReadsOnly]

theorem cellReadsOnly_spawn (cell : EmbedRequest) (n : String) :
    CellReadsOnly cell [Event.spawnThread n] := by
  simp [CellReadsOnly]

/-- C2: `NewArcEmbedRequest` fully populates the request (model, inputs,
metadata) before the cell is shared, and over the whole run trace of
`run_embedding_load` — the fetch and the persistence thread — the shared cell
is never written and every successful read observes exactly the request
supplied at construction. -/
theorem shared_cell_write_once_read_only (embed_model : String)
    (input_list : List String) (vector_table dimension : String)
    (db_config : VectorDbConfig) (env : Env) :
    NewArcEmbedRequest embed_model input_list env.metadata
      = { model := embed_model, input := input_list,
          metadata := some env.metadata } ∧
    CellReadsOnly (NewArcEmbedRequest embed_model input_list env.metadata)
      (run_embedding_load embed_model input_list vector_table dimension
        db_config env).1 := by
  refine ⟨rfl, ?_⟩
  rcases hd : parse_i32 dimension with u | d <;>
  rcases hsp : env.spawnResult with e | u' <;>
  simp only [run_embedding_load, hd, hsp] <;>
  · first
    | exact cellReadsOnly_append (cellReadsOnly_append
        (cellReadsOnly_append (cellReadsOnly_fetch _ _ _)
          (cellReadsOnly_log _ _)) (cellReadsOnly_spawn _ _))
        (cellReadsOnly_unit _ _ _ _ _ _)
    | exact cellReadsOnly_append (cellReadsOnly_fetch _ _ _)
        (cellReadsOnly_log _ _)
    | exact cellReadsOnly_append (cellReadsOnly_append
        (cellReadsOnly_append (cellReadsOnly_fetch _ _ _)
          (cellReadsOnly_nil _)) (cellReadsOnly_spawn _ _))
        (cellReadsOnly_unit _ _ _ _ _ _)
    | exact cellReadsOnly_append (cellReadsOnly_fetch _ _ _)
        (cellReadsOnly_nil _)

/-- C2 witness: on a concrete successful run no write to the cell occurs, and
the concrete observed read equals the constructed request. -/
theorem shared_cell_write_once_read_only_witness :
    Event.cellWrite cellW
        ∉ (run_embedding_load "nomic-embed-text" ["dog barks", "cat purrs"]
            "t1" "768" dbW envOkW).1 ∧
    cellW = NewArcEmbedRequest "nomic-embed-text"
        ["dog barks", "cat purrs"] envOkW.metadata :=
  ⟨(shared_cell_write_once_read_only "nomic-embed-text"
      ["dog barks", "cat purrs"] "t1" "768" dbW envOkW).2.1 cellW,
   (shared_cell_write_once_read_only "nomic-embed-text"
      ["dog barks", "cat purrs"] "t1" "768" dbW envOkW).2.2 cellW (by decide)⟩

/-- C5: inside the persistence unit, a connection-open failure or a read-lock
failure on the cell logs the error and exits early: no `create_table`, no
`load_vector_data`, and no `close` call occurs. -/
theorem persistence_unit_early_exit (db_config : VectorDbConfig)
    (cell : EmbedRequest) (table : String) (dim : Int)
    (resp : EmbedResponse) (env : Env) (e : String)
    (h : env.pgClientResult = Except.error e ∨
      (env.pgClientResult = Except.ok () ∧
        env.persistLockResult = Except.error e)) :
    Event.logError ("Error: " ++ e)
        ∈ persistence_unit db_config cell table dim resp env ∧
    (∀ t d, Event.createTable t d
        ∉ persistence_unit db_config cell table dim resp env) ∧
    (∀ t r es, Event.loadVectorData t r es
        ∉ persistence_unit db_config cell table dim resp env) ∧
    (∀ b, Event.closeConn b
        ∉ persistence_unit db_config cell table dim resp env) := by
  rcases h with hpg | ⟨hpg, hpl⟩
  · simp [persistence_unit, hpg]
  · simp [persistence_unit, hpg, hpl]

/-- C5 witness: a concrete connection-open failure logs the error and never
reaches `close`. -/
theorem persistence_unit_early_exit_witness :
    Event.logError ("Error: " ++ "conn refused")
        ∈ persistence_unit dbW cellW "t1" 768 respW envPgErrW ∧
    Event.closeConn true
        ∉ persistence_unit dbW cellW "t1" 768 respW envPgErrW :=
  ⟨(persistence_unit_early_exit dbW cellW "t1" 768 respW envPgErrW
      "conn refused" (Or.inl rfl)).1,
   (persistence_unit_early_exit dbW cellW "t1" 768 respW envPgErrW
      "conn refused" (Or.inl rfl)).2.2.2 true⟩

/-- C6: whenever the thread spawn succeeds, `run_embedding_load` returns `Ok`
with the thread's handle, regardless of fetch, parse, or persistence
failures. -/
theorem run_embedding_load_returns_handle (embed_model : String)
    (input_list : List String) (vector_table dimension : String)
    (db_config : VectorDbConfig) (env : Env)
    (h : env.spawnResult = Except.ok ()) :
    ∃ handle, (run_embedding_load embed_model input_list vector_table
      dimension db_config env).2 = Except.ok handle := by
  simp [run_embedding_load, h]

/-- C6 witness: with an unreachable service, an unparsable dimension, and
every persistence call failing, the return value is still `Ok`. -/
theorem run_embedding_load_returns_handle_witness :
    ((run_embedding_load "nomic-embed-text" ["dog barks"] "t1" "abc" dbW
      envAllFailW).2).isOk = true := by
  obtain ⟨handle, hh⟩ := run_embedding_load_returns_handle "nomic-embed-text"
    ["dog barks"] "t1" "abc" dbW envAllFailW rfl
  rw [hh]
  rfl

/-- C4: when the dimension string does not parse as an integer,
`run_embedding_load` logs the parse failure, treats the dimension as 0, and
continues: it still returns the thread's handle, and (when the persistence
unit's connection and lock succeed) `create_table` is called with dimension 0
and `load_vector_data` is still called. -/
theorem dimension_parse_failure_run_continues (embed_model : String)
    (input_list : List String) (vector_table dimension : String)
    (db_config : VectorDbConfig) (env : Env)
    (hd : parse_i32 dimension = Except.error ())
    (hsp : env.spawnResult = Except.ok ())
    (hpg : env.pgClientResult = Except.ok ())
    (hpl : env.persistLockResult = Except.ok ()) :
    Event.logError "Failed to parse dimension"
        ∈ (run_embedding_load embed_model input_list vector_table dimension
            db_config env).1 ∧
    (∃ handle, (run_embedding_load embed_model input_list vector_table
        dimension db_config env).2 = Except.ok handle) ∧
    Event.createTable vector_table 0
        ∈ (run_embedding_load embed_model input_list vector_table dimension
            db_config env).1 ∧
    Event.loadVectorData vector_table
        (NewArcEmbedRequest embed_model input_list env.metadata)
        ((fetch_embedding EMBEDDING_URL
          (NewArcEmbedRequest embed_model input_list env.metadata) env).2).embeddings
        ∈ (run_embedding_load embed_model input_list vector_table dimension
            db_config env).1 := by
  rcases hfl : env.fetchLockResult with e₁ | u₁ <;>
  rcases hsv : env.serviceResult with e₂ | resp <;>
  rcases hct : env.createTableResult with e₃ | u₃ <;>
  rcases hlv : env.loadVectorDataResult with e₄ | u₄ <;>
  rcases hcl : env.closeResult with e₅ | u₅ <;>
  simp [run_embedding_load, fetch_embedding, persistence_unit,
    persist_embedding_data, hd, hsp, hpg, hpl, hfl, hsv, hct, hlv, hcl]

/-- C4 witness: with the concrete dimension string "abc" the failure is
logged, the dimension used is 0, and persistence is still attempted. -/
theorem dimension_parse_failure_run_continues_witness :
    Event.logError "Failed to parse dimension"
        ∈ (run_embedding_load "nomic-embed-text" ["dog barks"] "t1" "abc"
            dbW envOkW).1 ∧
    Event.createTable "t1" 0
        ∈ (run_embedding_load "nomic-embed-text" ["dog barks"] "t1" "abc"
            dbW envOkW).1 :=
  ⟨(dimension_parse_failure_run_continues "nomic-embed-text" ["dog barks"]
      "t1" "abc" dbW envOkW rfl rfl rfl rfl).1,
   (dimension_parse_failure_run_continues "nomic-embed-text" ["dog barks"]
      "t1" "abc" dbW envOkW rfl rfl rfl rfl).2.2.1⟩

/-- C7: on a fully successful run the trace of `run_embedding_load` is
exactly: fetch (cell read, then the service call), then the thread spawn,
then — inside the persistence unit, in order — connection open from the
`VectorDbConfig`, cell read, `create_table`, `load_vector_data`, connection
close. -/
theorem pipeline_stage_order (embed_model : String) (input_list : List String)
    (vector_table dimension : String) (db_config : VectorDbConfig)
    (env : Env) (resp : EmbedResponse) (d : Int)
    (hfl : env.fetchLockResult = Except.ok ())
    (hsv : env.serviceResult = Except.ok resp)
    (hd : parse_i32 dimension = Except.ok d)
    (hsp : env.spawnResult = Except.ok ())
    (hpg : env.pgClientResult = Except.ok ())
    (hpl : env.persistLockResult = Except.ok ())
    (hct : env.createTableResult = Except.ok ())
    (hlv : env.loadVectorDataResult = Except.ok ())
    (hcl : env.closeResult = Except.ok ()) :
    (run_embedding_load embed_model input_list vector_table dimension
        db_config env).1
      = [Event.cellRead (some (NewArcEmbedRequest embed_model input_list
            env.metadata)),
         Event.serviceCall EMBEDDING_URL (NewArcEmbedRequest embed_model
            input_list env.metadata),
         Event.spawnThread "embedding_thread",
         Event.pgClientOpen db_config true,
         Event.cellRead (some (NewArcEmbedRequest embed_model input_list
            env.metadata)),
         Event.createTable vector_table d,
         Event.loadVectorData vector_table (NewArcEmbedRequest embed_model
            input_list env.metadata) resp.embeddings,
         Event.closeConn true] := by
  simp [run_embedding_load, fetch_embedding, persistence_unit,
    persist_embedding_data, hfl, hsv, hd, hsp, hpg, hpl, hct, hlv, hcl]

/-- C7 witness: the concrete successful run produces exactly the specified
event order. -/
theorem pipeline_stage_order_witness :
    (run_embedding_load "nomic-embed-text" ["dog barks", "cat purrs"] "t1"
        "768" dbW envOkW).1
      = [Event.cellRead (some (NewArcEmbedRequest "nomic-embed-text"
            ["dog barks", "cat purrs"] envOkW.metadata)),
         Event.serviceCall EMBEDDING_URL (NewArcEmbedRequest
            "nomic-embed-text" ["dog barks", "cat purrs"] envOkW.metadata),
         Event.spawnThread "embedding_thread",
         Event.pgClientOpen dbW true,
         Event.cellRead (some (NewArcEmbedRequest "nomic-embed-text"
            ["dog barks", "cat purrs"] envOkW.metadata)),
         Event.createTable "t1" 768,
         Event.loadVectorData "t1" (NewArcEmbedRequest "nomic-embed-text"
            ["dog barks", "cat purrs"] envOkW.metadata) respW.embeddings,
         Event.closeConn true] :=
  pipeline_stage_order "nomic-embed-text" ["dog barks", "cat purrs"] "t1"
    "768" dbW envOkW respW 768 rfl rfl rfl rfl rfl rfl rfl rfl rfl
